import Mathlib

/-!
Shallow embedding of the `unified-model-caller` repository
(`src/unified_model_caller/{enums.py, errors.py, core.py}`) and proofs about it.

The repository is a facade over several LLM provider APIs: a `Service`
enumeration with case-insensitive string lookup (`enums.py`), a small error
taxonomy (`errors.py`), and an `LLMCaller` class (`core.py`) whose
decorator-built handler registry dispatches a prompt to one adapter per
provider.  Each adapter is embedded as a pure function from the provider's
response (or raised error), which we pass in explicitly through a `World`
record that models the outcome of the external SDK calls.  Python exceptions
become an `Except` error channel; the single diagnostic `print` at the
dispatch boundary becomes an explicit log list.
-/

deriving instance DecidableEq for Except

namespace UnifiedModelCaller

/-- ASCII lower-casing of one character, as Python `str.lower` acts on the
ASCII range (all canonical service names and all strings compared by the code
are ASCII; non-ASCII case folding is out of scope of this embedding). -/
def pyLowerChar (c : Char) : Char :=
  if 65 ≤ c.toNat ∧ c.toNat ≤ 90 then Char.ofNat (c.toNat + 32) else c

/-- ASCII upper-casing of one character, Python `str.upper` on the ASCII range. -/
def pyUpperChar (c : Char) : Char :=
  if 97 ≤ c.toNat ∧ c.toNat ≤ 122 then Char.ofNat (c.toNat - 32) else c

/-- Python `s.lower()` (ASCII range). -/
def strLower (s : String) : String := String.mk (s.data.map pyLowerChar)

/-- Python `s.upper()` (ASCII range). -/
def strUpper (s : String) : String := String.mk (s.data.map pyUpperChar)

/-- Substring test on character lists: `listContains pat l` is true iff `pat`
occurs contiguously inside `l`. -/
def listContains (pat : List Char) : List Char → Bool
  | [] => pat.isEmpty
  | c :: rest => pat.isPrefixOf (c :: rest) || listContains pat rest

/-- Python `pat in s` for strings. -/
def pyIn (pat s : String) : Bool := listContains pat.data s.data

/-- The `Service` enumeration of `enums.py` (a `str`-valued `enum.Enum`). -/
inductive Service where
  | AristoteOnMyDocker
  | Anthropic
  | OpenAI
  | Google
  | xAI
deriving DecidableEq

/-- The string value of each member, exactly as written in `enums.py`. -/
def Service.value : Service → String
  | .AristoteOnMyDocker => "AristoteOnMyDocker"
  | .Anthropic => "Anthropic"
  | .OpenAI => "OpenAI"
  | .Google => "Google"
  | .xAI => "xAI"

/-- Python `str(service)`: `__str__` returns `self.value`. -/
def Service.str (s : Service) : String := s.value

/-- The enumeration members in definition order, the order Python iterates
them in `from_str`. -/
def serviceMembers : List Service :=
  [.AristoteOnMyDocker, .Anthropic, .OpenAI, .Google, .xAI]

/-- Errors raised by provider SDKs, Python builtins, or the `requests`
library — everything that is not one of this repository's own error classes.
`resourceExhausted` and `tooManyRequests` are the two structured
`google.api_core.exceptions` classes that `_call_google` catches by type;
`indexErr` / `typeErr` / `attrErr` / `keyErr` model the builtin structural
failures of unchecked subscripting and attribute access; `generic` is any
other exception.  The payload is the exception's message, i.e. `str(e)`. -/
inductive RawError where
  | generic (msg : String)
  | resourceExhausted (msg : String)
  | tooManyRequests (msg : String)
  | indexErr (msg : String)
  | typeErr (msg : String)
  | attrErr (msg : String)
  | keyErr (msg : String)
deriving DecidableEq

/-- Python `str(e)` for a raw error. -/
def RawError.msg : RawError → String
  | .generic m => m
  | .resourceExhausted m => m
  | .tooManyRequests m => m
  | .indexErr m => m
  | .typeErr m => m
  | .attrErr m => m
  | .keyErr m => m

/-- Every exception kind that can cross the `LLMCaller` dispatch boundary.
`invalidService`, `invalidModel` and `apiCall` are the classes of
`errors.py`; `modelOverloaded` is the `ModelOverloadedError` class that
`core.py` imports from `errors.py` and raises (see
`modelOverloadedError_missing_from_errors_py`: the class is referenced by
`core.py` but absent from `errors.py` — here we embed the behaviour
`core.py` is written against); `runtime` is Python's `RuntimeError` raised
by `_dispatch`; `notImplemented` is the `NotImplementedError` of
`_call_unsupported`; `raw` is a provider/builtin exception propagating
unwrapped.  `apiCall` and `modelOverloaded` carry the optional `__cause__`
installed by `raise ... from e`. -/
inductive TaxError where
  | invalidService (msg : String)
  | invalidModel (msg : String)
  | apiCall (msg : String) (cause : Option RawError)
  | modelOverloaded (msg : String) (cause : Option RawError)
  | runtime (msg : String)
  | notImplemented (msg : String)
  | raw (e : RawError)
deriving DecidableEq

/-- Python `str(e)` for a taxonomy error (each class stores its message). -/
def TaxError.msg : TaxError → String
  | .invalidService m => m
  | .invalidModel m => m
  | .apiCall m _ => m
  | .modelOverloaded m _ => m
  | .runtime m => m
  | .notImplemented m => m
  | .raw e => e.msg

/-- Classifier mirroring `isinstance(e, ModelOverloadedError)` on a call
outcome: true iff the call failed with `ModelOverloadedError`. -/
def isOverloadedResult : Except TaxError α → Bool
  | .error (.modelOverloaded _ _) => true
  | _ => false

/-- Classifier mirroring `isinstance(e, ApiCallError)` on a call outcome:
true iff the call failed with `ApiCallError`. -/
def isApiCallResult : Except TaxError α → Bool
  | .error (.apiCall _ _) => true
  | _ => false

/-- `Service.from_str` of `enums.py`: first member whose value compares equal
case-insensitively, else `InvalidServiceError`. -/
def Service.from_str (s : String) : Except TaxError Service :=
  match serviceMembers.find? (fun m => strLower m.value == strLower s) with
  | some m => .ok m
  | none => .error (.invalidService ("\x27" ++ s ++ "\x27 is not a valid service"))

/-- The facade state: resolved service, model name and credential, as stored
by `LLMCaller.__init__`. -/
structure LLMCaller where
  service : Service
  model : String
  api_key : String
deriving DecidableEq

/-- `LLMCaller.__init__`: lower-cases the service name, resolves it through
`Service.from_str` (which lower-cases again) and stores `model` and
`api_key` verbatim.  A failed resolution propagates `InvalidServiceError`. -/
def LLMCaller.init (service model api_key : String) : Except TaxError LLMCaller :=
  match Service.from_str (strLower service) with
  | .ok sv => .ok ⟨sv, model, api_key⟩
  | .error e => .error e

/-- Shape of `response.choices[i].message` in the OpenAI SDK: `content` is a
nullable string. -/
structure OpenAIMessage where
  content : Option String
deriving DecidableEq

/-- One element of `response.choices` in the OpenAI SDK. -/
structure OpenAIChoice where
  message : OpenAIMessage
deriving DecidableEq

/-- Shape of the OpenAI chat-completion response used by `_call_openai`. -/
structure OpenAIResponse where
  choices : List OpenAIChoice
deriving DecidableEq

/-- One block of `response.content` in the Anthropic SDK: a type tag and the
text payload read when the tag is `"text"`. -/
structure AnthropicBlock where
  type : String
  text : String
deriving DecidableEq

/-- Shape of the Anthropic message response used by `_call_anthropic`. -/
structure AnthropicResponse where
  content : List AnthropicBlock
deriving DecidableEq

/-- Untyped JSON/Python values, for the self-hosted endpoint whose response
is traversed dynamically (`response.json().get(...)[0].get(...)`). -/
inductive Json where
  | null
  | bool (b : Bool)
  | num (n : Int)
  | str (s : String)
  | arr (items : List Json)
  | obj (fields : List (String × Json))

/-- An HTTP POST as issued through `requests.post(url, json=body)`. -/
structure HttpPostRequest where
  url : String
  body : Json

/-- Python `d.get(key)` as `_call_aristote` uses it: on a dict, the value of
the first matching key or `None`; on `None` or any non-dict value the
attribute access itself raises `AttributeError`. -/
def pyDictGet (j : Json) (key : String) : Except RawError Json :=
  match j with
  | .obj fields => .ok ((fields.lookup key).getD .null)
  | .null => .error (.attrErr "NoneType object has no attribute get")
  | _ => .error (.attrErr "object has no attribute get")

/-- Python `v[i]` for a natural index, as `_call_aristote` uses it: list
indexing with `IndexError` past the end, `TypeError` on `None` and other
non-subscriptable values, `KeyError` on a (string-keyed) dict, and character
extraction on a string. -/
def pySubscript (j : Json) (i : Nat) : Except RawError Json :=
  match j with
  | .arr items =>
    match items.get? i with
    | some x => .ok x
    | none => .error (.indexErr "list index out of range")
  | .str s =>
    match s.data.get? i with
    | some c => .ok (.str (String.mk [c]))
    | none => .error (.indexErr "string index out of range")
  | .null => .error (.typeErr "NoneType object is not subscriptable")
  | .obj _ => .error (.keyErr "0")
  | _ => .error (.typeErr "object is not subscriptable")

/-- Fixed endpoint URL of the self-hosted provider in `_call_aristote`. -/
def aristoteEndpoint : String :=
  "https://aristote-dispatcher.mydocker-run-vd.centralesupelec.fr/v1/chat/completions"

/-- The JSON body `_call_aristote` posts: the model name and a single
user-role message whose content is the prompt. -/
def aristoteBody (model prompt : String) : Json :=
  .obj [("model", .str model),
        ("messages", .arr [.obj [("role", .str "user"), ("content", .str prompt)]])]

/-- The expression `response.json().get("choices")[0].get("message").get("content")`
of `_call_aristote`, with each structural failure surfacing as the builtin
exception Python would raise. -/
def aristoteExtract (j : Json) : Except RawError Json :=
  match pyDictGet j "choices" with
  | .error e => .error e
  | .ok choices =>
    match pySubscript choices 0 with
    | .error e => .error e
    | .ok first =>
      match pyDictGet first "message" with
      | .error e => .error e
      | .ok message => pyDictGet message "content"

/-- Outcomes of the external provider calls, one field per adapter: the
response the SDK / HTTP library would deliver, or the exception it would
raise.  This is the opaque external capability of the code, passed in
explicitly so each adapter is a pure function of it. -/
structure World where
  openaiResp : Except RawError OpenAIResponse
  anthropicResp : Except RawError AnthropicResponse
  googleResp : Except RawError (Option String)
  aristoteResp : Except RawError Json
  xaiResp : Except RawError String

/-- `LLMCaller._call_openai`: takes `choices[0].message.content`; raises
`ApiCallError` when the content is `None`; empty `choices` raises the
builtin `IndexError` unwrapped; any SDK exception propagates unwrapped. -/
def callOpenai (model : String) (r : Except RawError OpenAIResponse) : Except TaxError Json :=
  match r with
  | .error e => .error (.raw e)
  | .ok resp =>
    match resp.choices with
    | [] => .error (.raw (.indexErr "list index out of range"))
    | c :: _ =>
      match c.message.content with
      | none => .error (.apiCall
          ("The call to the OpenAI\x27s " ++ model ++ " model didn\x27t provide any text result")
          none)
      | some s => .ok (.str s)

/-- `LLMCaller._call_anthropic`: filters the content blocks whose type is
`"text"`; raises `ApiCallError` when none remain, else returns the first
block's text; any SDK exception propagates unwrapped. -/
def callAnthropic (model : String) (r : Except RawError AnthropicResponse) : Except TaxError Json :=
  match r with
  | .error e => .error (.raw e)
  | .ok resp =>
    match resp.content.filter (fun b => b.type == "text") with
    | [] => .error (.apiCall
        ("The call to the Anthropic " ++ model ++ " model didn\x27t provide any text response")
        none)
    | b :: _ => .ok (.str b.text)

/-- `LLMCaller._call_google`: on success returns `response.text or ""` (a
`None` text becomes the empty string); a structured `ResourceExhausted`
always becomes `ModelOverloadedError`; every other exception becomes
`ModelOverloadedError` when its message contains `"overloaded"`
case-insensitively (the `TooManyRequests` handler and the generic handler
perform the same classification) and `ApiCallError` otherwise, always with
the original exception as cause. -/
def callGoogle (r : Except RawError (Option String)) : Except TaxError Json :=
  match r with
  | .ok t => .ok (.str (t.getD ""))
  | .error e =>
    match e with
    | .resourceExhausted m =>
      .error (.modelOverloaded ("Gemini model overloaded: " ++ m) (some (.resourceExhausted m)))
    | _ =>
      if pyIn "overloaded" (strLower e.msg) then
        .error (.modelOverloaded ("Gemini model overloaded: " ++ e.msg) (some e))
      else
        .error (.apiCall ("Gemini API call failed: " ++ e.msg) (some e))

/-- `LLMCaller._call_aristote`: posts the fixed-endpoint request built from
`self.model` and the prompt (first component: the list of HTTP requests
issued, always exactly one), then extracts
`choices[0].message.content` from the JSON response with no error handling
of its own — a transport failure or structural failure propagates as the
raw exception.  The stored `api_key` is not consulted. -/
def callAristote (c : LLMCaller) (prompt : String) (r : Except RawError Json) :
    List HttpPostRequest × Except TaxError Json :=
  ([⟨aristoteEndpoint, aristoteBody c.model prompt⟩],
    match r with
    | .error e => .error (.raw e)
    | .ok j =>
      match aristoteExtract j with
      | .error e => .error (.raw e)
      | .ok v => .ok v)

/-- `LLMCaller._call_xai`: returns `response.content`; any SDK exception
propagates unwrapped. -/
def callXai (r : Except RawError String) : Except TaxError Json :=
  match r with
  | .error e => .error (.raw e)
  | .ok s => .ok (.str s)

/-- `LLMCaller._call_unsupported` (defined but carrying no `_services` tag,
hence never registered): always raises `NotImplementedError`. -/
def callUnsupported (c : LLMCaller) : Except TaxError Json :=
  .error (.notImplemented
    ("The service \x27" ++ c.service.value ++ "\x27 is recognized but not yet implemented."))

/-- Identifiers for the five registered adapter methods of `LLMCaller`. -/
inductive HandlerTag where
  | openai
  | anthropic
  | google
  | aristote
  | xai
deriving DecidableEq

/-- The `@_handler([...])`-tagged methods of `LLMCaller` in class-body
order, each with its declared `_services` list, exactly as decorated in
`core.py` (`_call_unsupported` carries no tag and is absent). -/
def handlerDecls : List (HandlerTag × List Service) :=
  [(.openai, [.OpenAI]),
   (.anthropic, [.Anthropic]),
   (.google, [.Google]),
   (.aristote, [.AristoteOnMyDocker]),
   (.xai, [.xAI])]

/-- `_collect_handlers`: fold over the class members in order, and for each
tagged member store it under every service it declares (later declarations
would overwrite earlier ones, as Python dict assignment does). -/
def collectHandlers (decls : List (HandlerTag × List Service)) : Service → Option HandlerTag :=
  decls.foldl
    (fun table entry =>
      entry.2.foldl (fun tbl s => fun q => if q = s then some entry.1 else tbl q) table)
    (fun _ => none)

/-- The `LLMCaller._handlers` registry built at class-definition time. -/
def handlers : Service → Option HandlerTag := collectHandlers handlerDecls

/-- Run the adapter designated by a tag on the facade state, prompt and
external world. -/
def runHandler (tag : HandlerTag) (c : LLMCaller) (prompt : String) (w : World) :
    Except TaxError Json :=
  match tag with
  | .openai => callOpenai c.model w.openaiResp
  | .anthropic => callAnthropic c.model w.anthropicResp
  | .google => callGoogle w.googleResp
  | .aristote => (callAristote c prompt w.aristoteResp).2
  | .xai => callXai w.xaiResp

/-- `LLMCaller._dispatch`: look the service up in the registry; raise
`RuntimeError` when no handler is found, else invoke the handler. -/
def dispatch (c : LLMCaller) (prompt : String) (w : World) : Except TaxError Json :=
  match handlers c.service with
  | none => .error (.runtime
      ("Didn\x27t find an appropriate handler for the " ++ c.service.value ++ " service"))
  | some tag => runHandler tag c prompt w

/-- The diagnostic line `LLMCaller.call` prints when the dispatched adapter
raises: the f-string of `core.py` line 186, interpolating `str(self.service)`
and `str(e)`. -/
def logLine (s : Service) (e : TaxError) : String :=
  "An error occurred while calling the " ++ s.value ++ " API: " ++ e.msg

/-- `LLMCaller.call`: returns the dispatch result unchanged on success (no
output); on any exception prints the one diagnostic line and re-raises the
same exception.  The second component is the list of lines printed at this
boundary. -/
def call (c : LLMCaller) (prompt : String) (w : World) :
    Except TaxError Json × List String :=
  match dispatch c prompt w with
  | .ok v => (.ok v, [])
  | .error e => (.error e, [logLine c.service e])

/-- Class names defined in `errors.py`, in source order. -/
def errorsPyClassNames : List String :=
  ["InvalidServiceError", "InvalidModelError", "ApiCallError"]

/-- Names that `core.py` line 5 pulls from `unified_model_caller.errors`. -/
def coreErrorImportNames : List String :=
  ["ApiCallError", "ModelOverloadedError"]

/-- The adapter each service is expected to resolve to; compared against the
registry actually built by `collectHandlers` in the registry theorem. -/
def tagFor : Service → HandlerTag
  | .OpenAI => .openai
  | .Anthropic => .anthropic
  | .Google => .google
  | .AristoteOnMyDocker => .aristote
  | .xAI => .xai

section Helpers

theorem toNat_ofNat_valid (n : Nat) (h : n.isValidChar) : (Char.ofNat n).toNat = n := by
  unfold Char.ofNat
  rw [dif_pos h]
  rfl

theorem pyLowerChar_toNat_of_upper (c : Char) (h : 65 ≤ c.toNat ∧ c.toNat ≤ 90) :
    (pyLowerChar c).toNat = c.toNat + 32 := by
  unfold pyLowerChar
  rw [if_pos h]
  exact toNat_ofNat_valid _ (Or.inl (by omega))

theorem pyLowerChar_of_not_upper (d : Char) (h : ¬(65 ≤ d.toNat ∧ d.toNat ≤ 90)) :
    pyLowerChar d = d := by
  unfold pyLowerChar
  rw [if_neg h]

theorem pyLowerChar_idem (c : Char) : pyLowerChar (pyLowerChar c) = pyLowerChar c := by
  by_cases h : 65 ≤ c.toNat ∧ c.toNat ≤ 90
  · have ht := pyLowerChar_toNat_of_upper c h
    exact pyLowerChar_of_not_upper (pyLowerChar c) (by omega)
  · rw [pyLowerChar_of_not_upper c h]
    exact pyLowerChar_of_not_upper c h

theorem strLower_idem (s : String) : strLower (strLower s) = strLower s := by
  unfold strLower
  have hc : pyLowerChar ∘ pyLowerChar = pyLowerChar := funext pyLowerChar_idem
  rw [List.map_map, hc]

theorem isPrefixOf_self_append (l t : List Char) : l.isPrefixOf (l ++ t) = true := by
  induction l with
  | nil => simp [List.isPrefixOf]
  | cons c rest ih => simp [List.isPrefixOf, ih]

theorem listContains_append (pat pre post : List Char) :
    listContains pat (pre ++ pat ++ post) = true := by
  induction pre with
  | nil =>
    cases hp : pat with
    | nil => cases post <;> simp [listContains, List.isPrefixOf]
    | cons c rest =>
      have : listContains (c :: rest) ((c :: rest) ++ post)
          = ((c :: rest).isPrefixOf ((c :: rest) ++ post) || listContains (c :: rest) (rest ++ post)) := rfl
      simp only [List.nil_append, this, isPrefixOf_self_append, Bool.true_or]
  | cons c pre ih =>
    have : listContains pat ((c :: pre) ++ pat ++ post)
        = (pat.isPrefixOf ((c :: pre) ++ pat ++ post) || listContains pat (pre ++ pat ++ post)) := by
      cases pat <;> rfl
    rw [this, ih, Bool.or_true]

theorem pyIn_middle (pat pre post : String) : pyIn pat (pre ++ pat ++ post) = true := by
  unfold pyIn
  rw [String.data_append, String.data_append]
  exact listContains_append pat.data pre.data post.data

theorem handlers_eval (s : Service) : handlers s = some (tagFor s) := by
  cases s <;> rfl

theorem dispatch_eq (c : LLMCaller) (prompt : String) (w : World) :
    dispatch c prompt w = runHandler (tagFor c.service) c prompt w := by
  unfold dispatch
  rw [handlers_eval c.service]

theorem call_of_dispatch_error (c : LLMCaller) (prompt : String) (w : World) (e : TaxError)
    (h : dispatch c prompt w = .error e) :
    call c prompt w = (.error e, [logLine c.service e]) := by
  unfold call
  rw [h]

theorem find?_members_none (s : String)
    (h : ∀ m ∈ serviceMembers, strLower m.value ≠ strLower s) :
    serviceMembers.find? (fun m => strLower m.value == strLower s) = none := by
  rw [List.find?_eq_none]
  intro m hm
  simpa using h m hm

end Helpers

/-- C1: for every prompt, when the adapter registered for the facade's
service returns a text string, `call` returns exactly that string, with no
diagnostic output (`core.py` lines 172-187: the success path of `call`
returns `_dispatch`'s value unmodified). -/
theorem call_returns_adapter_text (c : LLMCaller) (prompt s : String) (w : World)
    (tag : HandlerTag)
    (hreg : handlers c.service = some tag)
    (hret : runHandler tag c prompt w = .ok (.str s)) :
    call c prompt w = (.ok (.str s), []) := by
  simp only [call, dispatch, hreg, hret]

/-- Witness for C1: an OpenAI-configured facade whose provider responds
with text `"hello"` returns exactly `"hello"` from `call "anything"`. -/
theorem call_returns_adapter_text_witness :
    call ⟨.OpenAI, "gpt-4", "key"⟩ "anything"
        ⟨.ok ⟨[⟨⟨some "hello"⟩⟩]⟩, .ok ⟨[]⟩, .ok none, .ok .null, .ok ""⟩
      = (.ok (.str "hello"), []) :=
  call_returns_adapter_text ⟨.OpenAI, "gpt-4", "key"⟩ "anything" "hello"
    ⟨.ok ⟨[⟨⟨some "hello"⟩⟩]⟩, .ok ⟨[]⟩, .ok none, .ok .null, .ok ""⟩ .openai rfl rfl

/-- C5 (code bug): `core.py` line 5 imports `ModelOverloadedError` from
`unified_model_caller.errors`, but `errors.py` defines only
`InvalidServiceError`, `InvalidModelError` and `ApiCallError` — the class
the claim (and `core.py`) relies on does not exist, so loading the module
raises `ImportError` before any call can branch on the overload condition. -/
theorem modelOverloadedError_missing_from_errors_py :
    "ModelOverloadedError" ∈ coreErrorImportNames
    ∧ "ModelOverloadedError" ∉ errorsPyClassNames := by
  decide

/-- C6: whenever the dispatched adapter raises, `call` prints exactly one
diagnostic line — which contains the service name and the error message —
and re-raises the very same exception, never downgrading it or converting
it to a success (`core.py` lines 182-187). -/
theorem call_logs_once_and_reraises (c : LLMCaller) (prompt : String) (w : World)
    (e : TaxError)
    (h : dispatch c prompt w = .error e) :
    call c prompt w = (.error e, [logLine c.service e])
    ∧ pyIn c.service.value (logLine c.service e) = true
    ∧ pyIn e.msg (logLine c.service e) = true := by
  refine ⟨?_, ?_, ?_⟩
  · unfold call
    rw [h]
  · have : logLine c.service e
        = "An error occurred while calling the " ++ c.service.value
          ++ (" API: " ++ e.msg) := by
      unfold logLine
      rw [String.append_assoc]
    rw [this]
    exact pyIn_middle c.service.value "An error occurred while calling the " (" API: " ++ e.msg)
  · have : logLine c.service e
        = ("An error occurred while calling the " ++ c.service.value ++ " API: ")
          ++ e.msg ++ "" := by
      unfold logLine
      rw [String.append_empty]
    rw [this]
    exact pyIn_middle e.msg
      ("An error occurred while calling the " ++ c.service.value ++ " API: ") ""

/-- Witness for C6: an OpenAI-configured facade whose SDK raises a generic
error logs the one diagnostic line and re-raises that same error. -/
theorem call_logs_once_and_reraises_witness :
    call ⟨.OpenAI, "gpt-4", "key"⟩ "p"
        ⟨.error (.generic "boom"), .ok ⟨[]⟩, .ok none, .ok .null, .ok ""⟩
      = (.error (.raw (.generic "boom")),
         [logLine .OpenAI (.raw (.generic "boom"))])
    ∧ pyIn (Service.value .OpenAI) (logLine .OpenAI (.raw (.generic "boom"))) = true
    ∧ pyIn (TaxError.msg (.raw (.generic "boom")))
        (logLine .OpenAI (.raw (.generic "boom"))) = true :=
  call_logs_once_and_reraises ⟨.OpenAI, "gpt-4", "key"⟩ "p"
    ⟨.error (.generic "boom"), .ok ⟨[]⟩, .ok none, .ok .null, .ok ""⟩
    (.raw (.generic "boom")) rfl

/-- C7: `from_str` round-trips every canonical service name under both
lower-casing and upper-casing (`enums.py` lines 13-18 compare both sides
lower-cased). -/
theorem from_str_roundtrip_all_services (S : Service) :
    Service.from_str (strLower (Service.str S)) = .ok S
    ∧ Service.from_str (strUpper (Service.str S)) = .ok S := by
  cases S <;> exact ⟨rfl, rfl⟩

/-- C8: any string that matches no canonical service name case-insensitively
makes `from_str` fail with `InvalidServiceError`, and facade construction
with that service name fails the same way (the constructor lower-cases the
name before resolving, so its error message carries the lower-cased name). -/
theorem from_str_unknown_service_fails (s model key : String)
    (h : ∀ m ∈ serviceMembers, strLower m.value ≠ strLower s) :
    Service.from_str s
      = .error (.invalidService ("\x27" ++ s ++ "\x27 is not a valid service"))
    ∧ LLMCaller.init s model key
      = .error (.invalidService ("\x27" ++ strLower s ++ "\x27 is not a valid service")) := by
  constructor
  · unfold Service.from_str
    rw [find?_members_none s h]
  · have h2 : ∀ m ∈ serviceMembers, strLower m.value ≠ strLower (strLower s) := by
      intro m hm
      rw [strLower_idem]
      exact h m hm
    unfold LLMCaller.init Service.from_str
    rw [find?_members_none (strLower s) h2]

/-- Witness for C8: `"not-a-service"` matches nothing, so both `from_str`
and the constructor fail with `InvalidServiceError`. -/
theorem from_str_unknown_service_fails_witness :
    Service.from_str "not-a-service"
      = .error (.invalidService ("\x27" ++ "not-a-service" ++ "\x27 is not a valid service"))
    ∧ LLMCaller.init "not-a-service" "m" "k"
      = .error (.invalidService
          ("\x27" ++ strLower "not-a-service" ++ "\x27 is not a valid service")) :=
  from_str_unknown_service_fails "not-a-service" "m" "k" (by decide)

/-- C10: every service appears in exactly one handler declaration, the
registry built by `_collect_handlers` maps every service to its adapter,
and therefore `_dispatch` always reaches a handler — its `RuntimeError`
branch for a missing handler is unreachable for every facade. -/
theorem registry_total_no_handler_unreachable :
    (∀ s : Service, (handlerDecls.filter (fun d => d.2.contains s)).length = 1)
    ∧ (∀ s : Service, handlers s = some (tagFor s))
    ∧ (∀ (c : LLMCaller) (prompt : String) (w : World),
        dispatch c prompt w = runHandler (tagFor c.service) c prompt w) :=
  ⟨fun s => by cases s <;> rfl, handlers_eval, fun c prompt w => dispatch_eq c prompt w⟩

/-- Counterexample to C2 as stated: the OpenAI adapter performs no overload
classification at all — a provider failure whose message contains
`"OVERLOADED"` (so the claim's premise holds, third conjunct) propagates as
the raw error, and `call` does not fail with `ModelOverloadedError`. -/
theorem openai_overload_not_classified :
    call ⟨.OpenAI, "gpt-4", "key"⟩ "p"
        ⟨.error (.generic "The model is OVERLOADED"), .ok ⟨[]⟩, .ok none, .ok .null, .ok ""⟩
      = (.error (.raw (.generic "The model is OVERLOADED")),
         ["An error occurred while calling the OpenAI API: The model is OVERLOADED"])
    ∧ isOverloadedResult
        (call ⟨.OpenAI, "gpt-4", "key"⟩ "p"
          ⟨.error (.generic "The model is OVERLOADED"), .ok ⟨[]⟩, .ok none, .ok .null, .ok ""⟩).1
      = false
    ∧ pyIn "overloaded" (strLower (RawError.msg (.generic "The model is OVERLOADED"))) = true :=
  ⟨rfl, rfl, by decide⟩

/-- C2 (amended): the Google adapter — the only one that classifies overload
conditions — turns a structured resource-exhaustion error, or any provider
failure whose message contains `"overloaded"` case-insensitively, into a
`ModelOverloadedError` carrying the original error as cause (`core.py`
lines 114-126). -/
theorem google_overload_classified (c : LLMCaller) (prompt : String) (w : World)
    (e : RawError)
    (hs : c.service = .Google)
    (he : w.googleResp = .error e)
    (hover : (∃ m, e = .resourceExhausted m)
      ∨ pyIn "overloaded" (strLower e.msg) = true) :
    call c prompt w
      = (.error (.modelOverloaded ("Gemini model overloaded: " ++ e.msg) (some e)),
         [logLine .Google
           (.modelOverloaded ("Gemini model overloaded: " ++ e.msg) (some e))]) := by
  have hd : dispatch c prompt w
      = .error (.modelOverloaded ("Gemini model overloaded: " ++ e.msg) (some e)) := by
    rw [dispatch_eq, hs]
    show callGoogle w.googleResp = _
    rw [he]
    rcases hover with ⟨m, rfl⟩ | hin
    · rfl
    · cases e <;>
        first
          | rfl
          | (simp only [RawError.msg] at hin
             simp only [callGoogle, RawError.msg]
             rw [if_pos hin])
  rw [call_of_dispatch_error c prompt w _ hd, hs]

/-- Witness for the amended C2: a Google-configured facade whose SDK raises
a generic error mentioning `"OVERLOADED"` fails with `ModelOverloadedError`
carrying the original error as cause. -/
theorem google_overload_classified_witness :
    call ⟨.Google, "gemini-pro", "key"⟩ "p"
        ⟨.ok ⟨[]⟩, .ok ⟨[]⟩, .error (.generic "The model is OVERLOADED, retry later"),
         .ok .null, .ok ""⟩
      = (.error (.modelOverloaded "Gemini model overloaded: The model is OVERLOADED, retry later"
           (some (.generic "The model is OVERLOADED, retry later"))),
         ["An error occurred while calling the Google API: Gemini model overloaded: The model is OVERLOADED, retry later"]) :=
  google_overload_classified ⟨.Google, "gemini-pro", "key"⟩ "p"
    ⟨.ok ⟨[]⟩, .ok ⟨[]⟩, .error (.generic "The model is OVERLOADED, retry later"),
     .ok .null, .ok ""⟩
    (.generic "The model is OVERLOADED, retry later") rfl rfl (Or.inr (by decide))

/-- Counterexample to C3 as stated: the Google adapter, on a transport-level
success whose nullable `text` field is null, returns the empty string as a
success value instead of failing with `ApiCallError`. -/
theorem google_null_text_returns_empty :
    (call ⟨.Google, "gemini-pro", "k"⟩ "p"
        ⟨.ok ⟨[]⟩, .ok ⟨[]⟩, .ok none, .ok .null, .ok ""⟩).1
      = .ok (.str "")
    ∧ isApiCallResult
        (call ⟨.Google, "gemini-pro", "k"⟩ "p"
          ⟨.ok ⟨[]⟩, .ok ⟨[]⟩, .ok none, .ok .null, .ok ""⟩).1
      = false :=
  ⟨rfl, rfl⟩

/-- C3 (amended): the OpenAI adapter fails with `ApiCallError` when the
first choice's content is null, and the Anthropic adapter fails with
`ApiCallError` when no content block has type `"text"`.  (Google instead
maps a null text field to an empty-string success, and the xAI and Aristote
adapters perform no such check.) -/
theorem openai_anthropic_no_text_apiCallError :
    (∀ (c : LLMCaller) (prompt : String) (w : World) (rest : List OpenAIChoice),
      c.service = .OpenAI → w.openaiResp = .ok ⟨⟨⟨none⟩⟩ :: rest⟩ →
      (call c prompt w).1 = .error (.apiCall
        ("The call to the OpenAI\x27s " ++ c.model
          ++ " model didn\x27t provide any text result") none))
    ∧ (∀ (c : LLMCaller) (prompt : String) (w : World) (resp : AnthropicResponse),
      c.service = .Anthropic → w.anthropicResp = .ok resp →
      resp.content.filter (fun b => b.type == "text") = [] →
      (call c prompt w).1 = .error (.apiCall
        ("The call to the Anthropic " ++ c.model
          ++ " model didn\x27t provide any text response") none)) := by
  constructor
  · intro c prompt w rest hs hw
    have hd : dispatch c prompt w = .error (.apiCall
        ("The call to the OpenAI\x27s " ++ c.model
          ++ " model didn\x27t provide any text result") none) := by
      rw [dispatch_eq, hs]
      show callOpenai c.model w.openaiResp = _
      rw [hw]
      rfl
    rw [call_of_dispatch_error c prompt w _ hd]
  · intro c prompt w resp hs hw hfil
    have hd : dispatch c prompt w = .error (.apiCall
        ("The call to the Anthropic " ++ c.model
          ++ " model didn\x27t provide any text response") none) := by
      rw [dispatch_eq, hs]
      show callAnthropic c.model w.anthropicResp = _
      rw [hw]
      simp only [callAnthropic]
      rw [hfil]
    rw [call_of_dispatch_error c prompt w _ hd]

/-- Witness for the amended C3: a null OpenAI content and an Anthropic
response with only non-text blocks both surface as `ApiCallError`. -/
theorem openai_anthropic_no_text_witness :
    (call ⟨.OpenAI, "gpt-4", "k"⟩ "p"
        ⟨.ok ⟨[⟨⟨none⟩⟩]⟩, .ok ⟨[]⟩, .ok none, .ok .null, .ok ""⟩).1
      = .error (.apiCall
          "The call to the OpenAI\x27s gpt-4 model didn\x27t provide any text result" none)
    ∧ (call ⟨.Anthropic, "claude-3", "k"⟩ "p"
        ⟨.ok ⟨[]⟩, .ok ⟨[⟨"tool_use", "x"⟩]⟩, .ok none, .ok .null, .ok ""⟩).1
      = .error (.apiCall
          "The call to the Anthropic claude-3 model didn\x27t provide any text response" none) :=
  ⟨openai_anthropic_no_text_apiCallError.1 ⟨.OpenAI, "gpt-4", "k"⟩ "p"
      ⟨.ok ⟨[⟨⟨none⟩⟩]⟩, .ok ⟨[]⟩, .ok none, .ok .null, .ok ""⟩ [] rfl rfl,
   openai_anthropic_no_text_apiCallError.2 ⟨.Anthropic, "claude-3", "k"⟩ "p"
      ⟨.ok ⟨[]⟩, .ok ⟨[⟨"tool_use", "x"⟩]⟩, .ok none, .ok .null, .ok ""⟩
      ⟨[⟨"tool_use", "x"⟩]⟩ rfl rfl rfl⟩

/-- Counterexample to C4 as stated: the xAI adapter wraps nothing — a
generic provider failure propagates as the raw error, not as an
`ApiCallError`. -/
theorem xai_failure_not_wrapped :
    (call ⟨.xAI, "grok-2", "k"⟩ "p"
        ⟨.ok ⟨[]⟩, .ok ⟨[]⟩, .ok none, .ok .null, .error (.generic "connection reset")⟩).1
      = .error (.raw (.generic "connection reset"))
    ∧ isApiCallResult
        (call ⟨.xAI, "grok-2", "k"⟩ "p"
          ⟨.ok ⟨[]⟩, .ok ⟨[]⟩, .ok none, .ok .null, .error (.generic "connection reset")⟩).1
      = false :=
  ⟨rfl, rfl⟩

/-- C4 (amended): the Google adapter — alone among the five — wraps every
provider failure not classified as overload into an `ApiCallError` whose
message carries the original message and whose `__cause__` is the original
error (`core.py` lines 116-126). -/
theorem google_wraps_nonoverload_failures (c : LLMCaller) (prompt : String) (w : World)
    (e : RawError)
    (hs : c.service = .Google)
    (he : w.googleResp = .error e)
    (hnre : ∀ m, e ≠ .resourceExhausted m)
    (hnov : pyIn "overloaded" (strLower e.msg) = false) :
    call c prompt w
      = (.error (.apiCall ("Gemini API call failed: " ++ e.msg) (some e)),
         [logLine .Google (.apiCall ("Gemini API call failed: " ++ e.msg) (some e))]) := by
  have hd : dispatch c prompt w
      = .error (.apiCall ("Gemini API call failed: " ++ e.msg) (some e)) := by
    rw [dispatch_eq, hs]
    show callGoogle w.googleResp = _
    rw [he]
    cases e <;>
      first
        | (exact absurd rfl (hnre _))
        | (simp only [RawError.msg] at hnov
           simp only [callGoogle, RawError.msg]
           rw [hnov, if_neg Bool.false_ne_true])
  rw [call_of_dispatch_error c prompt w _ hd, hs]

/-- Witness for the amended C4: a Google-configured facade whose SDK raises
a generic error without "overloaded" in its message fails with an
`ApiCallError` carrying the original message and cause. -/
theorem google_wraps_nonoverload_witness :
    call ⟨.Google, "gemini-pro", "k"⟩ "p"
        ⟨.ok ⟨[]⟩, .ok ⟨[]⟩, .error (.generic "connection timed out"), .ok .null, .ok ""⟩
      = (.error (.apiCall "Gemini API call failed: connection timed out"
           (some (.generic "connection timed out"))),
         ["An error occurred while calling the Google API: Gemini API call failed: connection timed out"]) :=
  google_wraps_nonoverload_failures ⟨.Google, "gemini-pro", "k"⟩ "p"
    ⟨.ok ⟨[]⟩, .ok ⟨[]⟩, .error (.generic "connection timed out"), .ok .null, .ok ""⟩
    (.generic "connection timed out") rfl rfl (fun m h => nomatch h) (by decide)

/-- C9: the self-hosted Aristote adapter issues exactly one HTTP POST, to
the fixed endpoint URL, with JSON body `{"model": model, "messages":
[{"role": "user", "content": prompt}]}`; its behaviour is identical for any
two stored credentials (the `api_key` is never consulted); and when the
traversal `choices[0].message.content` of the JSON response succeeds it
returns exactly that content value. -/
theorem aristote_adapter_contract (mdl prompt k1 k2 : String) (sv : Service)
    (j choicesV first msgV contentV : Json)
    (h1 : pyDictGet j "choices" = .ok choicesV)
    (h2 : pySubscript choicesV 0 = .ok first)
    (h3 : pyDictGet first "message" = .ok msgV)
    (h4 : pyDictGet msgV "content" = .ok contentV) :
    (callAristote ⟨sv, mdl, k1⟩ prompt (.ok j)).1
      = [⟨aristoteEndpoint, aristoteBody mdl prompt⟩]
    ∧ (callAristote ⟨sv, mdl, k1⟩ prompt (.ok j)).2 = .ok contentV
    ∧ ∀ r, callAristote ⟨sv, mdl, k1⟩ prompt r = callAristote ⟨sv, mdl, k2⟩ prompt r := by
  refine ⟨rfl, ?_, fun r => rfl⟩
  have hex : aristoteExtract j = .ok contentV := by
    simp only [aristoteExtract, h1, h2, h3, h4]
  show (match aristoteExtract j with
    | Except.error e => Except.error (TaxError.raw e)
    | Except.ok v => Except.ok v) = Except.ok contentV
  rw [hex]

/-- A well-formed response of the self-hosted endpoint, used to witness the
Aristote adapter contract. -/
def aristoteSampleResponse : Json :=
  .obj [("choices", .arr [.obj [("message", .obj [("content", .str "bonjour")])]])]

/-- Witness for C9 at a concrete well-formed response: one POST to the fixed
URL with the expected body, content `"bonjour"` extracted, and the same
behaviour under two different credentials. -/
theorem aristote_adapter_contract_witness :
    (callAristote ⟨.AristoteOnMyDocker, "llama-3", "unused-key"⟩ "hi"
        (.ok aristoteSampleResponse)).1
      = [⟨aristoteEndpoint, aristoteBody "llama-3" "hi"⟩]
    ∧ (callAristote ⟨.AristoteOnMyDocker, "llama-3", "unused-key"⟩ "hi"
        (.ok aristoteSampleResponse)).2 = .ok (.str "bonjour")
    ∧ callAristote ⟨.AristoteOnMyDocker, "llama-3", "unused-key"⟩ "hi"
        (.ok aristoteSampleResponse)
      = callAristote ⟨.AristoteOnMyDocker, "llama-3", "other-key"⟩ "hi"
        (.ok aristoteSampleResponse) :=
  have h := aristote_adapter_contract "llama-3" "hi" "unused-key" "other-key"
    .AristoteOnMyDocker aristoteSampleResponse
    (.arr [.obj [("message", .obj [("content", .str "bonjour")])]])
    (.obj [("message", .obj [("content", .str "bonjour")])])
    (.obj [("content", .str "bonjour")])
    (.str "bonjour") rfl rfl rfl rfl
  ⟨h.1, h.2.1, h.2.2 (.ok aristoteSampleResponse)⟩

end UnifiedModelCaller
